import Mathlib

/-!
Shallow embedding of the OIUEEI booking/reservation engine.

The definitions below are translated from the Django source:
  * core/models/thing.py        (Thing, can_view)
  * core/models/collection.py   (Collection, add_invite)
  * core/models/booking.py      (BookingPeriod, has_overlap, expire_old_pending)
  * core/models/reservation.py  (ReservationRequest)
  * core/models/rsvp.py         (RSVP, is_valid, create_for_booking)
  * core/views/reservations.py  (ThingRequestView, ReservationAcceptView, ReservationRejectView)
  * core/views/booking.py       (BookingAcceptView, BookingRejectView)
  * core/views/auth.py          (VerifyLinkView and its action handlers)

Timestamps are modelled as integer hours, calendar dates as integer days.
Randomly generated primary-key codes are passed in as explicit parameters
(`freshCode`), and `timezone.now()` / `date.today()` as `now` / `today`.
Database rows live in lists inside a `DB` record; a Django `save` of a row
keyed by its primary key becomes a `map` that rewrites the matching row, and
`delete` becomes a `filter`.  Outbound mail is appended to `DB.outbox`; the
`links` field of a `SentEmail` records the hrefs embedded in the message.
-/

namespace Oiueei

/-- settings.MAGIC_LINK_EXPIRY_HOURS (config/settings/base.py): 24 hours. -/
def MAGIC_LINK_EXPIRY_HOURS : Int := 24

/-- settings.BOOKING_EXPIRY_HOURS is absent from settings, so the
`getattr` default of 72 hours in core/models/booking.py applies. -/
def BOOKING_EXPIRY_HOURS : Int := 72

/-- settings.RESERVATION_EXPIRY_HOURS is absent from settings, so the
`getattr` default of 72 hours in core/models/reservation.py applies. -/
def RESERVATION_EXPIRY_HOURS : Int := 72

/-- settings.BOOKING_BASE_URL default (core/views/reservations.py line 105). -/
def BOOKING_BASE_URL : String := "http://localhost:3000/bookings"

/-- settings.RESERVATION_BASE_URL default (core/views/reservations.py line 181). -/
def RESERVATION_BASE_URL : String := "http://localhost:3000/reservations"

/-- Thing.TYPE_CHOICES values (core/models/thing.py). -/
inductive ThingType
  | GIFT_THING
  | SELL_THING
  | ORDER_THING
  | RENT_THING
  | LEND_THING
  | SHARE_THING
  deriving DecidableEq

/-- The string stored in the thing_type column for each choice. -/
def ThingType.value : ThingType → String
  | .GIFT_THING => "GIFT_THING"
  | .SELL_THING => "SELL_THING"
  | .ORDER_THING => "ORDER_THING"
  | .RENT_THING => "RENT_THING"
  | .LEND_THING => "LEND_THING"
  | .SHARE_THING => "SHARE_THING"

/-- Thing.STATUS_CHOICES values (core/models/thing.py). -/
inductive ThingStatus
  | ACTIVE
  | TAKEN
  | INACTIVE
  deriving DecidableEq

/-- BookingPeriod.STATUS_CHOICES values (core/models/booking.py). -/
inductive BookingStatus
  | PENDING
  | ACCEPTED
  | REJECTED
  | EXPIRED
  deriving DecidableEq

/-- ReservationRequest.STATUS_CHOICES values (core/models/reservation.py);
unlike BookingPeriod there is no EXPIRED choice. -/
inductive ResStatus
  | PENDING
  | ACCEPTED
  | REJECTED
  deriving DecidableEq

/-- RSVP.ACTION_CHOICES values (core/models/rsvp.py). -/
inductive RsvpAction
  | MAGIC_LINK
  | COLLECTION_INVITE
  | BOOKING_ACCEPT
  | BOOKING_REJECT
  deriving DecidableEq

/-- User row (core/models/user.py); user_name is a CharField defaulting to
the empty string, user_last_activity is touched by update_last_activity. -/
structure User where
  user_code : String
  user_email : String
  user_name : String
  user_invited_collections : List String
  user_last_activity : Int
  deriving DecidableEq

/-- Collection row (core/models/collection.py), restricted to the fields the
booking engine reads or writes. -/
structure Collection where
  collection_code : String
  collection_owner : String
  collection_things : List String
  collection_invites : List String
  deriving DecidableEq

/-- Thing row (core/models/thing.py), restricted to the fields the booking
engine reads or writes. -/
structure Thing where
  thing_code : String
  thing_type : ThingType
  thing_owner : String
  thing_headline : String
  thing_status : ThingStatus
  thing_deal : List String
  thing_available : Bool
  deriving DecidableEq

/-- BookingPeriod row (core/models/booking.py). -/
structure BookingPeriod where
  booking_code : String
  booking_created : Int
  thing_code : String
  thing_type : ThingType
  requester_code : String
  requester_email : String
  owner_code : String
  start_date : Option Int
  end_date : Option Int
  delivery_date : Option Int
  quantity : Option Int
  status : BookingStatus
  deriving DecidableEq

/-- ReservationRequest row (core/models/reservation.py). -/
structure ReservationRequest where
  reservation_code : String
  reservation_created : Int
  thing_code : String
  requester_code : String
  requester_email : String
  owner_code : String
  status : ResStatus
  deriving DecidableEq

/-- RSVP row (core/models/rsvp.py).  rsvp_context is the free-form JSON
payload, modelled as string key/value pairs. -/
structure RSVP where
  rsvp_code : String
  rsvp_created : Int
  user_code : String
  user_email : String
  rsvp_action : RsvpAction
  rsvp_target_code : Option String
  collection_code : Option String
  rsvp_context : List (String × String)
  deriving DecidableEq

/-- An outbound email; `links` records the hrefs embedded in the message. -/
structure SentEmail where
  recipients : List String
  subject : String
  links : List String
  deriving DecidableEq

/-- The persistent store: one list per table, plus the mail outbox. -/
structure DB where
  users : List User
  collections : List Collection
  things : List Thing
  bookings : List BookingPeriod
  reservations : List ReservationRequest
  rsvps : List RSVP
  outbox : List SentEmail
  deriving DecidableEq

/-- HTTP statuses returned by the views. -/
inductive HttpStatus
  | ok
  | badRequest
  | forbidden
  | notFound
  | conflict
  | unauthorized
  | serverError
  deriving DecidableEq

/-- A view response: HTTP status plus the JSON body as key/value pairs. -/
structure HttpResponse where
  status : HttpStatus
  body : List (String × String)
  deriving DecidableEq

/-- Row lookup by primary key, as Model.objects.get(thing_code=...). -/
def findThing (db : DB) (code : String) : Option Thing :=
  db.things.find? fun t => t.thing_code == code

/-- Row lookup by primary key, as Model.objects.get(booking_code=...). -/
def findBooking (db : DB) (code : String) : Option BookingPeriod :=
  db.bookings.find? fun b => b.booking_code == code

/-- Row lookup by primary key, as Model.objects.get(reservation_code=...). -/
def findReservation (db : DB) (code : String) : Option ReservationRequest :=
  db.reservations.find? fun r => r.reservation_code == code

/-- Row lookup by primary key, as Model.objects.get(rsvp_code=...). -/
def findRsvp (db : DB) (code : String) : Option RSVP :=
  db.rsvps.find? fun r => r.rsvp_code == code

/-- Row lookup by primary key, as User.objects.get(user_code=...). -/
def findUser (db : DB) (code : String) : Option User :=
  db.users.find? fun u => u.user_code == code

/-- Row lookup by primary key, as Collection.objects.get(collection_code=...). -/
def findCollection (db : DB) (code : String) : Option Collection :=
  db.collections.find? fun c => c.collection_code == code

/-- Saving a modified Thing row back under its primary key. -/
def updateThing (db : DB) (code : String) (g : Thing → Thing) : DB :=
  { db with things := db.things.map fun t => if t.thing_code == code then g t else t }

/-- Saving a modified BookingPeriod row back under its primary key. -/
def updateBooking (db : DB) (code : String) (g : BookingPeriod → BookingPeriod) : DB :=
  { db with bookings := db.bookings.map fun b => if b.booking_code == code then g b else b }

/-- Saving a modified ReservationRequest row back under its primary key. -/
def updateReservation (db : DB) (code : String)
    (g : ReservationRequest → ReservationRequest) : DB :=
  { db with reservations :=
      db.reservations.map fun r => if r.reservation_code == code then g r else r }

/-- Saving a modified User row back under its primary key. -/
def updateUser (db : DB) (code : String) (g : User → User) : DB :=
  { db with users := db.users.map fun u => if u.user_code == code then g u else u }

/-- Saving a modified Collection row back under its primary key. -/
def updateCollection (db : DB) (code : String) (g : Collection → Collection) : DB :=
  { db with collections :=
      db.collections.map fun c => if c.collection_code == code then g c else c }

/-- rsvp.delete(): remove the row with this primary key. -/
def deleteRsvp (db : DB) (code : String) : DB :=
  { db with rsvps := db.rsvps.filter fun r => !(r.rsvp_code == code) }

/-- send_mail: append the message to the outbox (failures are swallowed). -/
def sendEmail (db : DB) (m : SentEmail) : DB :=
  { db with outbox := db.outbox ++ [m] }

/-- Python list idiom `if x not in l: l.append(x)`. -/
def addIfMissing (l : List String) (x : String) : List String :=
  if l.contains x then l else l ++ [x]

/-- Thing.is_owner (core/models/thing.py). -/
def Thing.is_owner (t : Thing) (user_code : String) : Bool :=
  t.thing_owner == user_code

/-- Thing.can_view (core/models/thing.py): owner always; otherwise the thing
must be available and in some collection whose invites include the user. -/
def Thing.can_view (t : Thing) (collections : List Collection) (user_code : String) : Bool :=
  if t.is_owner user_code then true
  else if !t.thing_available then false
  else collections.any fun c =>
    c.collection_things.contains t.thing_code && c.collection_invites.contains user_code

/-- BookingPeriod.is_valid (core/models/booking.py): within the 72h expiry
window, and still PENDING. -/
def bookingIsValid (now : Int) (b : BookingPeriod) : Bool :=
  decide (now < b.booking_created + BOOKING_EXPIRY_HOURS) && (b.status == BookingStatus.PENDING)

/-- ReservationRequest.is_valid (core/models/reservation.py). -/
def reservationIsValid (now : Int) (r : ReservationRequest) : Bool :=
  decide (now < r.reservation_created + RESERVATION_EXPIRY_HOURS)
    && (r.status == ResStatus.PENDING)

/-- RSVP.is_valid (core/models/rsvp.py): the single MAGIC_LINK_EXPIRY_HOURS
window is applied to every action kind. -/
def rsvpIsValid (now : Int) (r : RSVP) : Bool :=
  decide (now < r.rsvp_created + MAGIC_LINK_EXPIRY_HOURS)

/-- BookingPeriod.has_overlap (core/models/booking.py): an existing PENDING or
ACCEPTED booking of this thing with start_date <= requested end_date and
end_date >= requested start_date.  The Django lte/gte lookups on nullable
columns exclude NULL-dated rows. -/
def hasOverlap (bookings : List BookingPeriod) (tc : String) (s e : Int) : Bool :=
  bookings.any fun b =>
    b.thing_code == tc
    && (b.status == BookingStatus.PENDING || b.status == BookingStatus.ACCEPTED)
    && (match b.start_date with
        | some v => decide (v ≤ e)
        | none => false)
    && (match b.end_date with
        | some v => decide (s ≤ v)
        | none => false)

/-- The per-row effect of BookingPeriod.expire_old_pending: a PENDING row
created before now - BOOKING_EXPIRY_HOURS has its status set to EXPIRED. -/
def expireRow (now : Int) (b : BookingPeriod) : BookingPeriod :=
  if b.status = BookingStatus.PENDING ∧ b.booking_created < now - BOOKING_EXPIRY_HOURS then
    { b with status := BookingStatus.EXPIRED }
  else b

/-- BookingPeriod.expire_old_pending (core/models/booking.py): the batch
filter(status=PENDING, booking_created__lt=cutoff).update(status=EXPIRED),
returning the number of rows updated. -/
def expireOldPending (now : Int) (db : DB) : Nat × DB :=
  ((db.bookings.filter fun b =>
      b.status == BookingStatus.PENDING
        && decide (b.booking_created < now - BOOKING_EXPIRY_HOURS)).length,
   { db with bookings := db.bookings.map (expireRow now) })

/-- DATE_BASED_TYPES as defined at the top of core/views/reservations.py
(line 17); note these are the pre-migration ARTICLE names. -/
def reservationsDateBasedTypes : List String :=
  ["LEND_ARTICLE", "RENT_ARTICLE", "SHARE_ARTICLE"]

/-- SINGLE_USE_TYPES as defined in core/models/booking.py (line 22). -/
def singleUseTypes : List String :=
  ["GIFT_THING", "SELL_THING"]

/-- DRF permission classes of a view. -/
inductive ViewPermission
  | AllowAny
  | IsAuthenticated
  deriving DecidableEq

/-- The request body of POST /things/{code}/request/. -/
structure ReqPayload where
  start_date : Option Int
  end_date : Option Int
  delivery_date : Option Int
  quantity : Option Int
  deriving DecidableEq

/-- ThingRequestWithDatesSerializer (core/serializers/booking.py): start_date
and end_date are required, start_date must be today or later, end_date must be
on or after start_date.  Returns the validated pair or none on failure. -/
def validateDates (today : Int) (p : ReqPayload) : Option (Int × Int) :=
  match p.start_date, p.end_date with
  | some s, some e =>
    if s < today then none
    else if e < s then none
    else some (s, e)
  | _, _ => none

/-- Python `request.user.user_name or request.user.user_email`: the empty
string is falsy, so a blank name falls back to the email. -/
def requesterName (u : User) : String :=
  if u.user_name = "" then u.user_email else u.user_name

/-- RSVP.create_for_booking (core/models/rsvp.py).  Note the Python
`if booking.quantity:` treats a zero quantity as absent. -/
def rsvpCreateForBooking (action : RsvpAction) (b : BookingPeriod) (owner_email : String)
    (freshCode : String) (now : Int) : RSVP :=
  { rsvp_code := freshCode
    rsvp_created := now
    user_code := b.owner_code
    user_email := owner_email
    rsvp_action := action
    rsvp_target_code := some b.booking_code
    collection_code := none
    rsvp_context :=
      [("thing_code", b.thing_code), ("thing_type", b.thing_type.value),
       ("requester_code", b.requester_code), ("requester_email", b.requester_email)]
      ++ (match b.start_date with | some v => [("start_date", toString v)] | none => [])
      ++ (match b.end_date with | some v => [("end_date", toString v)] | none => [])
      ++ (match b.delivery_date with | some v => [("delivery_date", toString v)] | none => [])
      ++ (match b.quantity with
          | some v => if v == 0 then [] else [("quantity", toString v)]
          | none => []) }

/-- ThingRequestView._handle_date_based_request (core/views/reservations.py
lines 67-142): validate the dates, check overlap (409), create the
BookingPeriod (the create call omits thing_type, so the column default
GIFT_THING applies), look up the owner (500 if missing, with the booking
already persisted), email the owner accept/reject links built directly from
the booking code, and answer 200 echoing the dates. -/
def handleDateBasedRequest (now today : Int) (db : DB) (requester : User) (thing : Thing)
    (p : ReqPayload) (freshCode : String) : HttpResponse × DB :=
  match validateDates today p with
  | none => ({ status := .badRequest, body := [("error", "validation")] }, db)
  | some (s, e) =>
    if hasOverlap db.bookings thing.thing_code s e then
      ({ status := .conflict,
         body := [("error", "Selected dates overlap with existing booking")] }, db)
    else
      let booking : BookingPeriod :=
        { booking_code := freshCode
          booking_created := now
          thing_code := thing.thing_code
          thing_type := ThingType.GIFT_THING
          requester_code := requester.user_code
          requester_email := requester.user_email
          owner_code := thing.thing_owner
          start_date := some s
          end_date := some e
          delivery_date := none
          quantity := none
          status := BookingStatus.PENDING }
      let db1 : DB := { db with bookings := db.bookings ++ [booking] }
      match findUser db1 thing.thing_owner with
      | none => ({ status := .serverError, body := [("error", "Thing owner not found")] }, db1)
      | some owner =>
        let db2 := sendEmail db1
          { recipients := [owner.user_email]
            subject := requesterName requester ++ " quiere reservar: " ++ thing.thing_headline
            links := [BOOKING_BASE_URL ++ "/" ++ booking.booking_code ++ "/accept",
                      BOOKING_BASE_URL ++ "/" ++ booking.booking_code ++ "/reject"] }
        ({ status := .ok,
           body := [("message", "Booking request sent"),
                    ("booking_code", booking.booking_code),
                    ("start_date", toString s), ("end_date", toString e)] }, db2)

/-- ThingRequestView._handle_standard_request (core/views/reservations.py
lines 144-211): refuse a duplicate PENDING request by the same requester,
create a ReservationRequest, set the thing to TAKEN, look up the owner
(500 if missing, with the mutations already persisted), email the owner
accept/reject links built directly from the reservation code, answer 200. -/
def handleStandardRequest (now : Int) (db : DB) (requester : User) (thing : Thing)
    (freshCode : String) : HttpResponse × DB :=
  if db.reservations.any (fun r =>
      r.thing_code == thing.thing_code
      && r.requester_code == requester.user_code
      && r.status == ResStatus.PENDING) then
    ({ status := .badRequest,
       body := [("error", "You already have a pending request for this thing")] }, db)
  else
    let resv : ReservationRequest :=
      { reservation_code := freshCode
        reservation_created := now
        thing_code := thing.thing_code
        requester_code := requester.user_code
        requester_email := requester.user_email
        owner_code := thing.thing_owner
        status := ResStatus.PENDING }
    let db1 : DB := { db with reservations := db.reservations ++ [resv] }
    let db2 := updateThing db1 thing.thing_code
      (fun t => { t with thing_status := ThingStatus.TAKEN })
    match findUser db2 thing.thing_owner with
    | none => ({ status := .serverError, body := [("error", "Thing owner not found")] }, db2)
    | some owner =>
      let db3 := sendEmail db2
        { recipients := [owner.user_email]
          subject := requesterName requester ++ " quiere reservar: " ++ thing.thing_headline
          links := [RESERVATION_BASE_URL ++ "/" ++ resv.reservation_code ++ "/accept",
                    RESERVATION_BASE_URL ++ "/" ++ resv.reservation_code ++ "/reject"] }
      ({ status := .ok,
         body := [("message", "Reservation request sent"),
                  ("reservation_code", resv.reservation_code)] }, db3)

/-- ThingRequestView.post (core/views/reservations.py lines 31-65): existence,
visibility, not-owner and ACTIVE checks, then dispatch on whether the stored
thing_type string is in the view module constant DATE_BASED_TYPES. -/
def thingRequestPost (now today : Int) (db : DB) (requester : User) (thing_code : String)
    (p : ReqPayload) (freshCode : String) : HttpResponse × DB :=
  match findThing db thing_code with
  | none => ({ status := .notFound, body := [("error", "Thing not found")] }, db)
  | some thing =>
    if !(thing.can_view db.collections requester.user_code) then
      ({ status := .forbidden,
         body := [("error", "Not authorized to request this thing")] }, db)
    else if thing.is_owner requester.user_code then
      ({ status := .badRequest, body := [("error", "Cannot request your own thing")] }, db)
    else if !(thing.thing_status == ThingStatus.ACTIVE) then
      ({ status := .badRequest,
         body := [("error", "Thing is not available for reservation")] }, db)
    else if reservationsDateBasedTypes.contains thing.thing_type.value then
      handleDateBasedRequest now today db requester thing p freshCode
    else
      handleStandardRequest now db requester thing freshCode

/-- ReservationAcceptView.get (core/views/reservations.py lines 222-277):
look up the reservation (404), check its validity (400), look up the thing
(404), mark the reservation ACCEPTED, set the thing INACTIVE and unavailable
and append the requester to thing_deal if absent, email the requester. -/
def reservationAcceptGet (now : Int) (db : DB) (code : String) : HttpResponse × DB :=
  match findReservation db code with
  | none => ({ status := .notFound, body := [("error", "Reservation not found")] }, db)
  | some resv =>
    if !(reservationIsValid now resv) then
      ({ status := .badRequest,
         body := [("error", "Reservation expired or already processed")] }, db)
    else
      match findThing db resv.thing_code with
      | none => ({ status := .notFound, body := [("error", "Thing not found")] }, db)
      | some thing =>
        let db1 := updateReservation db code (fun r => { r with status := ResStatus.ACCEPTED })
        let db2 := updateThing db1 thing.thing_code (fun t =>
          { t with thing_status := ThingStatus.INACTIVE
                   thing_available := false
                   thing_deal := addIfMissing t.thing_deal resv.requester_code })
        let db3 := sendEmail db2
          { recipients := [resv.requester_email]
            subject := "Tu reserva ha sido aceptada: " ++ thing.thing_headline
            links := [] }
        ({ status := .ok,
           body := [("message", "Reservation accepted"),
                    ("thing_code", thing.thing_code),
                    ("requester_code", resv.requester_code)] }, db3)

/-- ReservationRejectView.get (core/views/reservations.py lines 288-340):
look up the reservation (404), check its validity (400), look up the thing
(404), mark the reservation REJECTED, set the thing back to ACTIVE, email
the requester. -/
def reservationRejectGet (now : Int) (db : DB) (code : String) : HttpResponse × DB :=
  match findReservation db code with
  | none => ({ status := .notFound, body := [("error", "Reservation not found")] }, db)
  | some resv =>
    if !(reservationIsValid now resv) then
      ({ status := .badRequest,
         body := [("error", "Reservation expired or already processed")] }, db)
    else
      match findThing db resv.thing_code with
      | none => ({ status := .notFound, body := [("error", "Thing not found")] }, db)
      | some thing =>
        let db1 := updateReservation db code (fun r => { r with status := ResStatus.REJECTED })
        let db2 := updateThing db1 thing.thing_code
          (fun t => { t with thing_status := ThingStatus.ACTIVE })
        let db3 := sendEmail db2
          { recipients := [resv.requester_email]
            subject := "Tu reserva ha sido rechazada: " ++ thing.thing_headline
            links := [] }
        ({ status := .ok,
           body := [("message", "Reservation rejected"),
                    ("thing_code", thing.thing_code),
                    ("requester_code", resv.requester_code)] }, db3)

/-- permission_classes of BookingAcceptView and BookingRejectView
(core/views/booking.py): AllowAny, i.e. no authentication required. -/
def bookingViewsPermission : ViewPermission := ViewPermission.AllowAny

/-- BookingAcceptView.get (core/views/booking.py lines 66-118): look up the
booking by its raw code (404), check its validity (400), look up the thing
(404), mark the booking ACCEPTED, email the requester.  The Thing row is
never written. -/
def bookingAcceptGet (now : Int) (db : DB) (code : String) : HttpResponse × DB :=
  match findBooking db code with
  | none => ({ status := .notFound, body := [("error", "Booking not found")] }, db)
  | some booking =>
    if !(bookingIsValid now booking) then
      ({ status := .badRequest,
         body := [("error", "Booking expired or already processed")] }, db)
    else
      match findThing db booking.thing_code with
      | none => ({ status := .notFound, body := [("error", "Thing not found")] }, db)
      | some thing =>
        let db1 := updateBooking db code (fun b => { b with status := BookingStatus.ACCEPTED })
        let db2 := sendEmail db1
          { recipients := [booking.requester_email]
            subject := "Tu reserva ha sido aceptada: " ++ thing.thing_headline
            links := [] }
        ({ status := .ok,
           body := [("message", "Booking accepted"),
                    ("booking_code", booking.booking_code),
                    ("thing_code", thing.thing_code),
                    ("start_date", toString booking.start_date),
                    ("end_date", toString booking.end_date)] }, db2)

/-- BookingRejectView.get (core/views/booking.py lines 129-179): same checks
as accept, marks the booking REJECTED, emails the requester; the Thing row is
never written. -/
def bookingRejectGet (now : Int) (db : DB) (code : String) : HttpResponse × DB :=
  match findBooking db code with
  | none => ({ status := .notFound, body := [("error", "Booking not found")] }, db)
  | some booking =>
    if !(bookingIsValid now booking) then
      ({ status := .badRequest,
         body := [("error", "Booking expired or already processed")] }, db)
    else
      match findThing db booking.thing_code with
      | none => ({ status := .notFound, body := [("error", "Thing not found")] }, db)
      | some thing =>
        let db1 := updateBooking db code (fun b => { b with status := BookingStatus.REJECTED })
        let db2 := sendEmail db1
          { recipients := [booking.requester_email]
            subject := "Tu reserva ha sido rechazada: " ++ thing.thing_headline
            links := [] }
        ({ status := .ok,
           body := [("message", "Booking rejected"),
                    ("booking_code", booking.booking_code),
                    ("thing_code", thing.thing_code)] }, db2)

/-- The optional type-specific echo fields of a booking-action response
(core/views/auth.py lines 336-343): each field is included only when the
Python value is truthy, so a zero quantity is omitted. -/
def bookingEchoFields (b : BookingPeriod) : List (String × String) :=
  (match b.start_date with | some v => [("start_date", toString v)] | none => [])
  ++ (match b.end_date with | some v => [("end_date", toString v)] | none => [])
  ++ (match b.delivery_date with | some v => [("delivery_date", toString v)] | none => [])
  ++ (match b.quantity with
      | some v => if v == 0 then [] else [("quantity", toString v)]
      | none => [])

/-- Email subject chosen by the booking accept handler (core/views/auth.py
lines 286-310): date-based when both dates are set, order when a delivery
date is set, plain reservation otherwise. -/
def bookingAcceptSubject (b : BookingPeriod) (headline : String) : String :=
  match b.start_date, b.end_date with
  | some _, some _ => "Tu reserva ha sido aceptada: " ++ headline
  | _, _ =>
    match b.delivery_date with
    | some _ => "Tu pedido ha sido aceptado: " ++ headline
    | none => "Tu reserva ha sido aceptada: " ++ headline

/-- Email subject chosen by the booking reject handler (core/views/auth.py
lines 385-409). -/
def bookingRejectSubject (b : BookingPeriod) (headline : String) : String :=
  match b.start_date, b.end_date with
  | some _, some _ => "Tu reserva ha sido rechazada: " ++ headline
  | _, _ =>
    match b.delivery_date with
    | some _ => "Tu pedido ha sido rechazado: " ++ headline
    | none => "Tu reserva ha sido rechazada: " ++ headline

/-- VerifyLinkView._handle_magic_link (core/views/auth.py lines 143-182):
look up the subject user (on failure delete the token and answer 401),
touch the user's last activity, delete the token, answer 200; the JWT issue
and session login are external collaborators and not modelled. -/
def handleMagicLink (now : Int) (db : DB) (r : RSVP) : HttpResponse × DB :=
  match findUser db r.user_code with
  | none =>
    ({ status := .unauthorized, body := [("error", "User not found")] }, deleteRsvp db r.rsvp_code)
  | some u =>
    let db1 := updateUser db u.user_code (fun v => { v with user_last_activity := now })
    let db2 := deleteRsvp db1 r.rsvp_code
    ({ status := .ok, body := [("action", "MAGIC_LINK")] }, db2)

/-- VerifyLinkView._handle_collection_invite (core/views/auth.py lines
191-243): look up the subject user (on failure delete the token, 401), touch
last activity, and when the legacy collection_code names an existing
collection add the user to its invites and the collection to the user's
invited list (both idempotently); delete the token and answer 200. -/
def handleCollectionInvite (now : Int) (db : DB) (r : RSVP) : HttpResponse × DB :=
  match findUser db r.user_code with
  | none =>
    ({ status := .unauthorized, body := [("error", "User not found")] }, deleteRsvp db r.rsvp_code)
  | some u =>
    let db1 := updateUser db u.user_code (fun v => { v with user_last_activity := now })
    let db2 :=
      match r.collection_code with
      | none => db1
      | some cc =>
        match findCollection db1 cc with
        | none => db1
        | some _ =>
          let dbA := updateCollection db1 cc (fun c =>
            { c with collection_invites := addIfMissing c.collection_invites u.user_code })
          updateUser dbA u.user_code (fun v =>
            { v with user_invited_collections := addIfMissing v.user_invited_collections cc })
    let db3 := deleteRsvp db2 r.rsvp_code
    ({ status := .ok, body := [("action", "COLLECTION_INVITE")] }, db3)

/-- VerifyLinkView._handle_booking_accept (core/views/auth.py lines 245-345):
look up the target booking (on failure delete the token, 404), check the
booking's own validity (on failure delete the token, 400), look up the thing
(on failure delete the token, 404); then mark the booking ACCEPTED, and for a
single-use thing_type set the thing INACTIVE and unavailable and append the
requester to thing_deal if absent; email the requester, delete the token,
answer 200 with the type-specific echo fields. -/
def handleBookingAccept (now : Int) (db : DB) (r : RSVP) : HttpResponse × DB :=
  match (match r.rsvp_target_code with
         | some tc => findBooking db tc
         | none => none) with
  | none =>
    ({ status := .notFound, body := [("error", "Booking not found")] }, deleteRsvp db r.rsvp_code)
  | some booking =>
    if !(bookingIsValid now booking) then
      ({ status := .badRequest, body := [("error", "Booking expired or already processed")] },
       deleteRsvp db r.rsvp_code)
    else
      match findThing db booking.thing_code with
      | none =>
        ({ status := .notFound, body := [("error", "Thing not found")] },
         deleteRsvp db r.rsvp_code)
      | some thing =>
        let db1 := updateBooking db booking.booking_code
          (fun b => { b with status := BookingStatus.ACCEPTED })
        let db2 :=
          if singleUseTypes.contains booking.thing_type.value then
            updateThing db1 thing.thing_code (fun t =>
              { t with thing_status := ThingStatus.INACTIVE
                       thing_available := false
                       thing_deal := addIfMissing t.thing_deal booking.requester_code })
          else db1
        let db3 := sendEmail db2
          { recipients := [booking.requester_email]
            subject := bookingAcceptSubject booking thing.thing_headline
            links := [] }
        let db4 := deleteRsvp db3 r.rsvp_code
        ({ status := .ok,
           body := [("action", "BOOKING_ACCEPT"), ("message", "Booking accepted"),
                    ("thing_headline", thing.thing_headline)]
                   ++ bookingEchoFields booking }, db4)

/-- VerifyLinkView._handle_booking_reject (core/views/auth.py lines 347-436):
same lookups and deletions as accept; marks the booking REJECTED, and for a
single-use thing_type restores the thing to ACTIVE; emails the requester,
deletes the token, answers 200. -/
def handleBookingReject (now : Int) (db : DB) (r : RSVP) : HttpResponse × DB :=
  match (match r.rsvp_target_code with
         | some tc => findBooking db tc
         | none => none) with
  | none =>
    ({ status := .notFound, body := [("error", "Booking not found")] }, deleteRsvp db r.rsvp_code)
  | some booking =>
    if !(bookingIsValid now booking) then
      ({ status := .badRequest, body := [("error", "Booking expired or already processed")] },
       deleteRsvp db r.rsvp_code)
    else
      match findThing db booking.thing_code with
      | none =>
        ({ status := .notFound, body := [("error", "Thing not found")] },
         deleteRsvp db r.rsvp_code)
      | some thing =>
        let db1 := updateBooking db booking.booking_code
          (fun b => { b with status := BookingStatus.REJECTED })
        let db2 :=
          if singleUseTypes.contains booking.thing_type.value then
            updateThing db1 thing.thing_code
              (fun t => { t with thing_status := ThingStatus.ACTIVE })
          else db1
        let db3 := sendEmail db2
          { recipients := [booking.requester_email]
            subject := bookingRejectSubject booking thing.thing_headline
            links := [] }
        let db4 := deleteRsvp db3 r.rsvp_code
        ({ status := .ok,
           body := [("action", "BOOKING_REJECT"), ("message", "Booking rejected"),
                    ("thing_headline", thing.thing_headline)] }, db4)

/-- VerifyLinkView.get (core/views/auth.py lines 112-141): unknown code is
401; an expired token is deleted on detection and answered 401; otherwise
dispatch on the token's action kind. -/
def verifyLink (now : Int) (db : DB) (code : String) : HttpResponse × DB :=
  match findRsvp db code with
  | none => ({ status := .unauthorized, body := [("error", "Invalid or expired link")] }, db)
  | some r =>
    if !(rsvpIsValid now r) then
      ({ status := .unauthorized, body := [("error", "Link expired")] }, deleteRsvp db code)
    else
      match r.rsvp_action with
      | .MAGIC_LINK => handleMagicLink now db r
      | .COLLECTION_INVITE => handleCollectionInvite now db r
      | .BOOKING_ACCEPT => handleBookingAccept now db r
      | .BOOKING_REJECT => handleBookingReject now db r

/-- find? commutes with mapping a function that does not change the
predicate's verdict on any element. -/
theorem find_map_pres {α : Type} (p : α → Bool) (f : α → α) (hp : ∀ a, p (f a) = p a)
    (l : List α) : (l.map f).find? p = (l.find? p).map f := by
  rw [List.find?_map]
  have h : p ∘ f = p := funext hp
  rw [h]

/-- A row saved under a primary key is visible to later lookups, and rows
with other keys are untouched. -/
theorem findThing_updateThing (db : DB) (code c : String) (g : Thing → Thing)
    (hg : ∀ t, (g t).thing_code = t.thing_code) :
    findThing (updateThing db code g) c
      = (findThing db c).map (fun t => if t.thing_code == code then g t else t) := by
  unfold findThing updateThing
  exact find_map_pres _ _
    (fun t => by by_cases h : t.thing_code == code <;> simp [h, hg]) _

/-- Reservation analogue of findThing_updateThing. -/
theorem findReservation_updateReservation (db : DB) (code c : String)
    (g : ReservationRequest → ReservationRequest)
    (hg : ∀ r, (g r).reservation_code = r.reservation_code) :
    findReservation (updateReservation db code g) c
      = (findReservation db c).map
          (fun r => if r.reservation_code == code then g r else r) := by
  unfold findReservation updateReservation
  exact find_map_pres _ _
    (fun r => by by_cases h : r.reservation_code == code <;> simp [h, hg]) _

/-- A deleted RSVP row is gone from later lookups. -/
theorem findRsvp_deleteRsvp (db : DB) (code : String) :
    findRsvp (deleteRsvp db code) code = none := by
  unfold findRsvp deleteRsvp
  rw [List.find?_eq_none]
  intro r hr
  have h := List.mem_filter.mp hr
  simpa using h.2

/-- A successful RSVP lookup returns the row carrying the looked-up code. -/
theorem findRsvp_code (db : DB) (code : String) (r : RSVP)
    (h : findRsvp db code = some r) : r.rsvp_code = code := by
  unfold findRsvp at h
  have hp := List.find?_some h
  simpa using hp

/-- Every branch of the booking-accept handler ends by deleting the token. -/
theorem handleBookingAccept_rsvps (now : Int) (db : DB) (r : RSVP) :
    (handleBookingAccept now db r).2.rsvps
      = db.rsvps.filter (fun x => !(x.rsvp_code == r.rsvp_code)) := by
  unfold handleBookingAccept
  split
  · simp [deleteRsvp]
  · split
    · simp [deleteRsvp]
    · split
      · simp [deleteRsvp]
      · split <;> simp [deleteRsvp, sendEmail, updateThing, updateBooking]

/-- Every branch of the booking-reject handler ends by deleting the token. -/
theorem handleBookingReject_rsvps (now : Int) (db : DB) (r : RSVP) :
    (handleBookingReject now db r).2.rsvps
      = db.rsvps.filter (fun x => !(x.rsvp_code == r.rsvp_code)) := by
  unfold handleBookingReject
  split
  · simp [deleteRsvp]
  · split
    · simp [deleteRsvp]
    · split
      · simp [deleteRsvp]
      · split <;> simp [deleteRsvp, sendEmail, updateThing, updateBooking]

/-- Every branch of the magic-link handler ends by deleting the token. -/
theorem handleMagicLink_rsvps (now : Int) (db : DB) (r : RSVP) :
    (handleMagicLink now db r).2.rsvps
      = db.rsvps.filter (fun x => !(x.rsvp_code == r.rsvp_code)) := by
  unfold handleMagicLink
  split <;> simp [deleteRsvp, updateUser]

/-- Every branch of the collection-invite handler ends by deleting the token. -/
theorem handleCollectionInvite_rsvps (now : Int) (db : DB) (r : RSVP) :
    (handleCollectionInvite now db r).2.rsvps
      = db.rsvps.filter (fun x => !(x.rsvp_code == r.rsvp_code)) := by
  unfold handleCollectionInvite
  split
  · simp [deleteRsvp]
  · split
    · simp [deleteRsvp, updateUser]
    · dsimp only
      split
      · simp [deleteRsvp, updateUser]
      · simp [deleteRsvp, updateUser, updateCollection]

/-- Once the resolve pipeline has located the token, the resulting store no
longer contains its row, whatever the outcome. -/
theorem verifyLink_rsvps_deleted (now : Int) (db : DB) (code : String) (r : RSVP)
    (hr : findRsvp db code = some r) :
    (verifyLink now db code).2.rsvps
      = db.rsvps.filter (fun x => !(x.rsvp_code == code)) := by
  have hcode : r.rsvp_code = code := findRsvp_code db code r hr
  unfold verifyLink
  simp only [hr]
  by_cases hv : rsvpIsValid now r
  · rw [if_neg (by simp [hv])]
    cases ha : r.rsvp_action <;> simp only [ha]
    · rw [← hcode]; exact handleMagicLink_rsvps now db r
    · rw [← hcode]; exact handleCollectionInvite_rsvps now db r
    · rw [← hcode]; exact handleBookingAccept_rsvps now db r
    · rw [← hcode]; exact handleBookingReject_rsvps now db r
  · rw [if_pos (by simpa using hv)]
    simp [deleteRsvp]

/-- C9: expire_stale_pending transitions exactly the PENDING bookings older
than the 72-hour expiry window to EXPIRED, changes no other booking field,
and leaves every other table (in particular every Thing row, so a TAKEN
single-use thing stays TAKEN) untouched. -/
theorem c9_expire_stale_pending_frame (now : Int) (db : DB) (b : BookingPeriod) (c : String) :
    (expireOldPending now db).2.things = db.things
    ∧ (expireOldPending now db).2.reservations = db.reservations
    ∧ (expireOldPending now db).2.rsvps = db.rsvps
    ∧ (expireOldPending now db).2.users = db.users
    ∧ (expireOldPending now db).2.collections = db.collections
    ∧ findThing (expireOldPending now db).2 c = findThing db c
    ∧ (expireOldPending now db).2.bookings = db.bookings.map (expireRow now)
    ∧ ((expireRow now b).status = BookingStatus.EXPIRED
        ↔ (b.status = BookingStatus.PENDING
            ∧ b.booking_created < now - BOOKING_EXPIRY_HOURS)
          ∨ b.status = BookingStatus.EXPIRED)
    ∧ (expireRow now b).booking_code = b.booking_code
    ∧ (expireRow now b).booking_created = b.booking_created
    ∧ (expireRow now b).thing_code = b.thing_code
    ∧ (expireRow now b).thing_type = b.thing_type
    ∧ (expireRow now b).requester_code = b.requester_code
    ∧ (expireRow now b).requester_email = b.requester_email
    ∧ (expireRow now b).owner_code = b.owner_code
    ∧ (expireRow now b).start_date = b.start_date
    ∧ (expireRow now b).end_date = b.end_date
    ∧ (expireRow now b).delivery_date = b.delivery_date
    ∧ (expireRow now b).quantity = b.quantity := by
  refine ⟨rfl, rfl, rfl, rfl, rfl, rfl, rfl, ?_, ?_, ?_, ?_, ?_, ?_, ?_, ?_, ?_, ?_, ?_, ?_⟩
  · unfold expireRow
    by_cases h : b.status = BookingStatus.PENDING
        ∧ b.booking_created < now - BOOKING_EXPIRY_HOURS
    · rw [if_pos h]
      simp [h]
    · rw [if_neg h]
      constructor
      · intro he
        exact Or.inr he
      · rintro (hpe | he)
        · exact absurd hpe h
        · exact he
  all_goals unfold expireRow
  all_goals split <;> rfl

/-- C10: the direct accept endpoint GET /bookings/{code}/accept/ is open to
unauthenticated callers, and on success it rewrites only the booking's
status to ACCEPTED: the things, reservations and rsvps tables are returned
unchanged for every thing_type. -/
theorem c10_direct_accept_frame (now : Int) (db : DB) (code : String) (b : BookingPeriod)
    (t : Thing) (hb : findBooking db code = some b) (hv : bookingIsValid now b = true)
    (ht : findThing db b.thing_code = some t) :
    bookingViewsPermission = ViewPermission.AllowAny
    ∧ (bookingAcceptGet now db code).1.status = HttpStatus.ok
    ∧ (bookingAcceptGet now db code).2.things = db.things
    ∧ (bookingAcceptGet now db code).2.reservations = db.reservations
    ∧ (bookingAcceptGet now db code).2.rsvps = db.rsvps
    ∧ (bookingAcceptGet now db code).2.bookings
        = db.bookings.map (fun x =>
            if x.booking_code == code then { x with status := BookingStatus.ACCEPTED }
            else x) := by
  refine ⟨rfl, ?_, ?_, ?_, ?_, ?_⟩ <;>
    simp [bookingAcceptGet, hb, hv, ht, updateBooking, sendEmail]

/-- Fixture: an owner account for the concrete examples. -/
def ownerU : User :=
  { user_code := "OWNER1"
    user_email := "owner@example.com"
    user_name := "Olga"
    user_invited_collections := []
    user_last_activity := 0 }

/-- Fixture: a requester account for the concrete examples. -/
def reqU : User :=
  { user_code := "REQ001"
    user_email := "req@example.com"
    user_name := "Rita"
    user_invited_collections := []
    user_last_activity := 0 }

/-- Fixture for C10: a PENDING single-use booking. -/
def c10booking : BookingPeriod :=
  { booking_code := "BOOK01"
    booking_created := 0
    thing_code := "GIFT01"
    thing_type := ThingType.GIFT_THING
    requester_code := "REQ001"
    requester_email := "req@example.com"
    owner_code := "OWNER1"
    start_date := none
    end_date := none
    delivery_date := none
    quantity := none
    status := BookingStatus.PENDING }

/-- Fixture for C10: the single-use thing the booking points at, currently
TAKEN by the request. -/
def c10thing : Thing :=
  { thing_code := "GIFT01"
    thing_type := ThingType.GIFT_THING
    thing_owner := "OWNER1"
    thing_headline := "Lamp"
    thing_status := ThingStatus.TAKEN
    thing_deal := []
    thing_available := true }

/-- Fixture for C10: the store holding the booking and its thing. -/
def c10db : DB :=
  { users := [ownerU, reqU]
    collections := []
    things := [c10thing]
    bookings := [c10booking]
    reservations := []
    rsvps := []
    outbox := [] }

/-- Witness for C10: accepting the concrete single-use booking through the
direct endpoint succeeds and leaves every non-booking table unchanged. -/
theorem c10_direct_accept_frame_witness :
    bookingViewsPermission = ViewPermission.AllowAny
    ∧ (bookingAcceptGet 1 c10db "BOOK01").1.status = HttpStatus.ok
    ∧ (bookingAcceptGet 1 c10db "BOOK01").2.things = c10db.things
    ∧ (bookingAcceptGet 1 c10db "BOOK01").2.reservations = c10db.reservations
    ∧ (bookingAcceptGet 1 c10db "BOOK01").2.rsvps = c10db.rsvps
    ∧ (bookingAcceptGet 1 c10db "BOOK01").2.bookings
        = c10db.bookings.map (fun x =>
            if x.booking_code == "BOOK01" then { x with status := BookingStatus.ACCEPTED }
            else x) :=
  c10_direct_accept_frame 1 c10db "BOOK01" c10booking c10thing (by decide) (by decide)
    (by decide)

/-- The overlap test succeeds exactly when some PENDING or ACCEPTED booking
of the thing has a date range meeting the requested one inclusively. -/
theorem hasOverlap_iff (bs : List BookingPeriod) (tc : String) (s e : Int) :
    hasOverlap bs tc s e = true ↔
      ∃ b ∈ bs, b.thing_code = tc
        ∧ (b.status = BookingStatus.PENDING ∨ b.status = BookingStatus.ACCEPTED)
        ∧ ∃ bs0 be0, b.start_date = some bs0 ∧ b.end_date = some be0
            ∧ bs0 ≤ e ∧ s ≤ be0 := by
  unfold hasOverlap
  rw [List.any_eq_true]
  constructor
  · rintro ⟨b, hb, hpred⟩
    refine ⟨b, hb, ?_⟩
    cases hsd : b.start_date with
    | none => rw [hsd] at hpred; simp at hpred
    | some v =>
      cases hed : b.end_date with
      | none => rw [hsd, hed] at hpred; simp at hpred
      | some w =>
        rw [hsd, hed] at hpred
        simp only [Bool.and_eq_true, Bool.or_eq_true, beq_iff_eq,
          decide_eq_true_eq] at hpred
        exact ⟨hpred.1.1.1, hpred.1.1.2, v, w, rfl, rfl, hpred.1.2, hpred.2⟩
  · rintro ⟨b, hb, htc, hst, v, w, hsd, hed, h1, h2⟩
    refine ⟨b, hb, ?_⟩
    rw [hsd, hed]
    simp [htc, hst, h1, h2]

/-- C2: for a valid date payload, the date-based create path answers
CONFLICT exactly when some existing PENDING or ACCEPTED booking of the same
thing satisfies existing.start_date ≤ new.end_date and existing.end_date ≥
new.start_date; REJECTED/EXPIRED and NULL-dated rows never block. -/
theorem c2_conflict_iff_overlap (now today : Int) (db : DB) (requester : User)
    (thing : Thing) (p : ReqPayload) (fc : String) (s e : Int)
    (hs : p.start_date = some s) (he : p.end_date = some e)
    (hst : today ≤ s) (hse : s ≤ e) :
    (handleDateBasedRequest now today db requester thing p fc).1.status = HttpStatus.conflict
      ↔ ∃ b ∈ db.bookings, b.thing_code = thing.thing_code
          ∧ (b.status = BookingStatus.PENDING ∨ b.status = BookingStatus.ACCEPTED)
          ∧ ∃ bs0 be0, b.start_date = some bs0 ∧ b.end_date = some be0
              ∧ bs0 ≤ e ∧ s ≤ be0 := by
  have hval : validateDates today p = some (s, e) := by
    unfold validateDates
    simp only [hs, he]
    rw [if_neg (by omega), if_neg (by omega)]
  rw [← hasOverlap_iff db.bookings thing.thing_code s e]
  unfold handleDateBasedRequest
  rw [hval]
  cases hov : hasOverlap db.bookings thing.thing_code s e
  · simp only [hov, Bool.false_eq_true, if_false]
    constructor
    · intro h
      exfalso
      revert h
      split <;> simp
    · intro h
      cases h
  · simp [hov]

/-- Fixture for C2: a date-based thing with one PENDING booking on days
5 to 10. -/
def c2thing : Thing :=
  { thing_code := "LEND01"
    thing_type := ThingType.LEND_THING
    thing_owner := "OWNER1"
    thing_headline := "Tent"
    thing_status := ThingStatus.ACTIVE
    thing_deal := []
    thing_available := true }

/-- Fixture for C2: the blocking PENDING booking on days 5 to 10. -/
def c2booking : BookingPeriod :=
  { booking_code := "BOOK05"
    booking_created := 0
    thing_code := "LEND01"
    thing_type := ThingType.GIFT_THING
    requester_code := "REQ002"
    requester_email := "other@example.com"
    owner_code := "OWNER1"
    start_date := some 5
    end_date := some 10
    delivery_date := none
    quantity := none
    status := BookingStatus.PENDING }

/-- Fixture for C2: store with the blocking booking. -/
def c2db : DB :=
  { users := [ownerU, reqU]
    collections := []
    things := [c2thing]
    bookings := [c2booking]
    reservations := []
    rsvps := []
    outbox := [] }

/-- Fixture for C2: a request for days 3 to 6, which meets days 5 to 10. -/
def c2payload : ReqPayload :=
  { start_date := some 3
    end_date := some 6
    delivery_date := none
    quantity := none }

/-- Witness for C2 at the concrete overlapping request. -/
theorem c2_conflict_iff_overlap_witness :
    (handleDateBasedRequest 1 0 c2db reqU c2thing c2payload "BOOKN1").1.status
        = HttpStatus.conflict
      ↔ ∃ b ∈ c2db.bookings, b.thing_code = c2thing.thing_code
          ∧ (b.status = BookingStatus.PENDING ∨ b.status = BookingStatus.ACCEPTED)
          ∧ ∃ bs0 be0, b.start_date = some bs0 ∧ b.end_date = some be0
              ∧ bs0 ≤ (6 : Int) ∧ (3 : Int) ≤ be0 :=
  c2_conflict_iff_overlap 1 0 c2db reqU c2thing c2payload "BOOKN1" 3 6 rfl rfl
    (by decide) (by decide)

/-- Fixture for C1: a LEND thing visible to the invited requester. -/
def c1coll : Collection :=
  { collection_code := "COLL01"
    collection_owner := "OWNER1"
    collection_things := ["LEND01"]
    collection_invites := ["REQ001"] }

/-- Fixture for C1: store with the LEND thing, no bookings, no reservations. -/
def c1db : DB :=
  { users := [ownerU, reqU]
    collections := [c1coll]
    things := [c2thing]
    bookings := []
    reservations := []
    rsvps := []
    outbox := [] }

/-- Fixture for C1: a valid date payload, days 0 to 3 with today = 0. -/
def c1payload : ReqPayload :=
  { start_date := some 0
    end_date := some 3
    delivery_date := none
    quantity := none }

/-- C1 (divergence exhibit): the view module constant DATE_BASED_TYPES still
holds the pre-migration ARTICLE names, so a LEND_THING request passes all
four preconditions with a valid non-overlapping date range and is then
routed to the standard single-use path: no BookingPeriod carrying the dates
is created, a dateless ReservationRequest is created instead, and the
Thing's status is set to TAKEN rather than left ACTIVE. -/
theorem c1_lend_request_takes_standard_path :
    reservationsDateBasedTypes.contains ThingType.LEND_THING.value = false
    ∧ (thingRequestPost 0 0 c1db reqU "LEND01" c1payload "RES001").1.status = HttpStatus.ok
    ∧ (thingRequestPost 0 0 c1db reqU "LEND01" c1payload "RES001").1.body
        = [("message", "Reservation request sent"), ("reservation_code", "RES001")]
    ∧ (thingRequestPost 0 0 c1db reqU "LEND01" c1payload "RES001").2.bookings = []
    ∧ findThing (thingRequestPost 0 0 c1db reqU "LEND01" c1payload "RES001").2 "LEND01"
        = some { c2thing with thing_status := ThingStatus.TAKEN } := by
  refine ⟨?_, ?_, ?_, ?_, ?_⟩ <;> decide

/-- Fixture for C4: a repeatable ORDER thing. -/
def c4thing : Thing :=
  { thing_code := "ORDR01"
    thing_type := ThingType.ORDER_THING
    thing_owner := "OWNER1"
    thing_headline := "Cakes"
    thing_status := ThingStatus.ACTIVE
    thing_deal := []
    thing_available := true }

/-- Fixture for C4: the collection making the ORDER thing visible. -/
def c4coll : Collection :=
  { collection_code := "COLL04"
    collection_owner := "OWNER1"
    collection_things := ["ORDR01"]
    collection_invites := ["REQ001"] }

/-- Fixture for C4: store with the ORDER thing. -/
def c4db : DB :=
  { users := [ownerU, reqU]
    collections := [c4coll]
    things := [c4thing]
    bookings := []
    reservations := []
    rsvps := []
    outbox := [] }

/-- Fixture for C4: a request body supplying no delivery_date and no
quantity at all. -/
def c4emptyPayload : ReqPayload :=
  { start_date := none
    end_date := none
    delivery_date := none
    quantity := none }

/-- C4 (divergence exhibit): an ORDER_THING request with an empty payload is
not rejected with VALIDATION_ERROR: the standard path ignores delivery_date
and quantity entirely (ThingOrderSerializer is never invoked), creates a
dateless ReservationRequest carrying neither field, and sets the Thing's
status to TAKEN instead of leaving it ACTIVE. -/
theorem c4_order_request_ignores_payload_and_takes_thing :
    (thingRequestPost 0 0 c4db reqU "ORDR01" c4emptyPayload "RES004").1.status = HttpStatus.ok
    ∧ (thingRequestPost 0 0 c4db reqU "ORDR01" c4emptyPayload "RES004").1.body
        = [("message", "Reservation request sent"), ("reservation_code", "RES004")]
    ∧ (thingRequestPost 0 0 c4db reqU "ORDR01" c4emptyPayload "RES004").2.bookings = []
    ∧ (thingRequestPost 0 0 c4db reqU "ORDR01" c4emptyPayload "RES004").2.reservations
        = [{ reservation_code := "RES004"
             reservation_created := 0
             thing_code := "ORDR01"
             requester_code := "REQ001"
             requester_email := "req@example.com"
             owner_code := "OWNER1"
             status := ResStatus.PENDING }]
    ∧ findThing (thingRequestPost 0 0 c4db reqU "ORDR01" c4emptyPayload "RES004").2 "ORDR01"
        = some { c4thing with thing_status := ThingStatus.TAKEN } := by
  refine ⟨?_, ?_, ?_, ?_, ?_⟩ <;> decide

/-- Fixture for C5: a single-use GIFT thing. -/
def c5thing : Thing :=
  { thing_code := "GIFT05"
    thing_type := ThingType.GIFT_THING
    thing_owner := "OWNER1"
    thing_headline := "Lamp"
    thing_status := ThingStatus.ACTIVE
    thing_deal := []
    thing_available := true }

/-- Fixture for C5: the collection making the GIFT thing visible. -/
def c5coll : Collection :=
  { collection_code := "COLL05"
    collection_owner := "OWNER1"
    collection_things := ["GIFT05"]
    collection_invites := ["REQ001"] }

/-- Fixture for C5: store with the GIFT thing and an empty RSVP table. -/
def c5db : DB :=
  { users := [ownerU, reqU]
    collections := [c5coll]
    things := [c5thing]
    bookings := []
    reservations := []
    rsvps := []
    outbox := [] }

/-- C5 (divergence exhibit): a successful create_request registers no RSVP
token at all, and the accept/reject links placed in the owner's email embed
the raw reservation code directly (RESERVATION_BASE_URL/{code}/accept),
so an internal identifier appears in the links instead of an RSVP code. -/
theorem c5_no_rsvp_registered_and_raw_code_in_links :
    (thingRequestPost 0 0 c5db reqU "GIFT05" c4emptyPayload "RES005").1.status = HttpStatus.ok
    ∧ (thingRequestPost 0 0 c5db reqU "GIFT05" c4emptyPayload "RES005").2.rsvps = []
    ∧ (thingRequestPost 0 0 c5db reqU "GIFT05" c4emptyPayload "RES005").2.outbox
        = [{ recipients := ["owner@example.com"]
             subject := "Rita quiere reservar: Lamp"
             links := ["http://localhost:3000/reservations/RES005/accept",
                       "http://localhost:3000/reservations/RES005/reject"] }] := by
  refine ⟨?_, ?_, ?_⟩ <;> decide

/-- Filtering out a code leaves nothing for a lookup of that code to find. -/
theorem findRsvp_filter_ne (l : List RSVP) (code : String) :
    (l.filter fun x => !(x.rsvp_code == code)).find? (fun r => r.rsvp_code == code)
      = none := by
  rw [List.find?_eq_none]
  intro x hx
  have hmem := (List.mem_filter.mp hx).2
  simpa using hmem

/-- An unknown RSVP code is answered 401 by the resolve endpoint. -/
theorem verifyLink_notFound (now : Int) (db : DB) (code : String)
    (h : findRsvp db code = none) :
    (verifyLink now db code).1.status = HttpStatus.unauthorized := by
  unfold verifyLink
  rw [h]

/-- Fixture for C6: a GIFT thing referenced by the booking below. -/
def c6thing : Thing :=
  { thing_code := "GIFT06"
    thing_type := ThingType.GIFT_THING
    thing_owner := "OWNER1"
    thing_headline := "Vase"
    thing_status := ThingStatus.TAKEN
    thing_deal := []
    thing_available := true }

/-- Fixture for C6: a PENDING booking created at hour 0. -/
def c6booking : BookingPeriod :=
  { booking_code := "BOOK06"
    booking_created := 0
    thing_code := "GIFT06"
    thing_type := ThingType.GIFT_THING
    requester_code := "REQ001"
    requester_email := "req@example.com"
    owner_code := "OWNER1"
    start_date := none
    end_date := none
    delivery_date := none
    quantity := none
    status := BookingStatus.PENDING }

/-- Fixture for C6: a booking-accept token issued at hour 0. -/
def c6rsvp : RSVP :=
  { rsvp_code := "RSVP06"
    rsvp_created := 0
    user_code := "OWNER1"
    user_email := "owner@example.com"
    rsvp_action := RsvpAction.BOOKING_ACCEPT
    rsvp_target_code := some "BOOK06"
    collection_code := none
    rsvp_context := [] }

/-- Fixture for C6: store with the token, its booking and its thing. -/
def c6db : DB :=
  { users := [ownerU, reqU]
    collections := []
    things := [c6thing]
    bookings := [c6booking]
    reservations := []
    rsvps := [c6rsvp]
    outbox := [] }

/-- C6 (refutation): at hour 30 a booking-accept token issued at hour 0 is
inside the booking's own 72-hour window (the booking is still PENDING and
fresh), yet the token-expiry gate rejects it with 401 and deletes it,
because RSVP.is_valid applies the uniform 24-hour MAGIC_LINK window to
booking actions as well. -/
theorem c6_booking_token_fails_gate_within_72h_cex :
    c6rsvp.rsvp_action = RsvpAction.BOOKING_ACCEPT
    ∧ rsvpIsValid 30 c6rsvp = false
    ∧ ((30 : Int) < c6booking.booking_created + BOOKING_EXPIRY_HOURS
        ∧ c6booking.status = BookingStatus.PENDING)
    ∧ (verifyLink 30 c6db "RSVP06").1.status = HttpStatus.unauthorized
    ∧ findRsvp (verifyLink 30 c6db "RSVP06").2 "RSVP06" = none := by
  refine ⟨?_, ?_, ?_, ?_, ?_⟩ <;> decide

/-- C6 (amended): a booking-action token passes the expiry gate exactly when
the uniform MAGIC_LINK_EXPIRY_HOURS window (24 hours, the same knob as for
login links) has not elapsed since the token's creation; failing the gate
answers 401.  When the gate passes, the resolve succeeds exactly when the
booking's own staleness check passes, which depends only on the booking's
creation time (BOOKING_EXPIRY_HOURS, 72 hours) and PENDING status — so the
two gates are independent and both must pass. -/
theorem c6_rsvp_gate_uniform_and_independent (now : Int) (db : DB) (code : String)
    (r : RSVP) (b : BookingPeriod) (t : Thing)
    (hr : findRsvp db code = some r)
    (hact : r.rsvp_action = RsvpAction.BOOKING_ACCEPT)
    (htc : r.rsvp_target_code = some b.booking_code)
    (hb : findBooking db b.booking_code = some b)
    (ht : findThing db b.thing_code = some t) :
    (rsvpIsValid now r = true ↔ now < r.rsvp_created + MAGIC_LINK_EXPIRY_HOURS)
    ∧ (rsvpIsValid now r = false →
        (verifyLink now db code).1.status = HttpStatus.unauthorized)
    ∧ (rsvpIsValid now r = true →
        ((verifyLink now db code).1.status = HttpStatus.ok
          ↔ (now < b.booking_created + BOOKING_EXPIRY_HOURS
              ∧ b.status = BookingStatus.PENDING))) := by
  refine ⟨by simp [rsvpIsValid], ?_, ?_⟩
  · intro hf
    unfold verifyLink
    simp only [hr]
    rw [if_pos (by simp [hf])]
  · intro hv
    unfold verifyLink
    simp only [hr]
    rw [if_neg (by simp [hv])]
    simp only [hact]
    unfold handleBookingAccept
    simp only [htc, hb]
    by_cases hbv : bookingIsValid now b = true
    · rw [if_neg (by simp [hbv])]
      simp only [ht]
      constructor
      · intro _
        unfold bookingIsValid at hbv
        simp only [Bool.and_eq_true, decide_eq_true_eq, beq_iff_eq] at hbv
        exact hbv
      · intro _
        trivial
    · rw [if_pos (by simpa using hbv)]
      constructor
      · intro h
        simp at h
      · intro hcon
        exfalso
        apply hbv
        unfold bookingIsValid
        simp [hcon.1, hcon.2]

/-- Witness for C6 (amended) at hour 10: the token gate passes and the
resolve outcome tracks the booking's own staleness check. -/
theorem c6_rsvp_gate_uniform_and_independent_witness :
    (rsvpIsValid 10 c6rsvp = true
        ↔ (10 : Int) < c6rsvp.rsvp_created + MAGIC_LINK_EXPIRY_HOURS)
    ∧ (rsvpIsValid 10 c6rsvp = false →
        (verifyLink 10 c6db "RSVP06").1.status = HttpStatus.unauthorized)
    ∧ (rsvpIsValid 10 c6rsvp = true →
        ((verifyLink 10 c6db "RSVP06").1.status = HttpStatus.ok
          ↔ ((10 : Int) < c6booking.booking_created + BOOKING_EXPIRY_HOURS
              ∧ c6booking.status = BookingStatus.PENDING))) :=
  c6_rsvp_gate_uniform_and_independent 10 c6db "RSVP06" c6rsvp c6booking c6thing
    (by decide) (by decide) (by decide) (by decide) (by decide)

/-- C7: once a resolve of a code succeeds, or expiry is detected on an
access attempt, the token row is gone from the store and every later
resolve of the same code answers 401. -/
theorem c7_rsvp_never_usable_twice (now now2 : Int) (db : DB) (code : String)
    (h : (verifyLink now db code).1.status = HttpStatus.ok
         ∨ ∃ r, findRsvp db code = some r ∧ rsvpIsValid now r = false) :
    findRsvp (verifyLink now db code).2 code = none
    ∧ (verifyLink now2 (verifyLink now db code).2 code).1.status
        = HttpStatus.unauthorized := by
  have hfound : ∃ r, findRsvp db code = some r := by
    cases hf : findRsvp db code with
    | none =>
      rcases h with hok | ⟨r, hr, _⟩
      · have hu := verifyLink_notFound now db code hf
        rw [hok] at hu
        exact absurd hu (by decide)
      · rw [hf] at hr
        exact absurd hr (by simp)
    | some r => exact ⟨r, rfl⟩
  rcases hfound with ⟨r, hr⟩
  have hdel := verifyLink_rsvps_deleted now db code r hr
  have hnone : findRsvp (verifyLink now db code).2 code = none := by
    unfold findRsvp
    rw [hdel]
    exact findRsvp_filter_ne db.rsvps code
  exact ⟨hnone, verifyLink_notFound now2 _ code hnone⟩

/-- Fixture for C7: a magic-link token issued at hour 0. -/
def c7rsvp : RSVP :=
  { rsvp_code := "RSVP07"
    rsvp_created := 0
    user_code := "OWNER1"
    user_email := "owner@example.com"
    rsvp_action := RsvpAction.MAGIC_LINK
    rsvp_target_code := none
    collection_code := none
    rsvp_context := [] }

/-- Fixture for C7: store with the magic-link token and its user. -/
def c7db : DB :=
  { users := [ownerU, reqU]
    collections := []
    things := []
    bookings := []
    reservations := []
    rsvps := [c7rsvp]
    outbox := [] }

/-- Witness for C7: a successful resolve at hour 1, then a second attempt at
hour 2 bounces with 401. -/
theorem c7_rsvp_never_usable_twice_witness :
    findRsvp (verifyLink 1 c7db "RSVP07").2 "RSVP07" = none
    ∧ (verifyLink 2 (verifyLink 1 c7db "RSVP07").2 "RSVP07").1.status
        = HttpStatus.unauthorized :=
  c7_rsvp_never_usable_twice 1 2 c7db "RSVP07" (Or.inl (by decide))

/-- Fixture for C8: a booking-accept token whose target booking is missing. -/
def c8rsvp : RSVP :=
  { rsvp_code := "RSVP08"
    rsvp_created := 0
    user_code := "OWNER1"
    user_email := "owner@example.com"
    rsvp_action := RsvpAction.BOOKING_ACCEPT
    rsvp_target_code := some "NOBOOK"
    collection_code := none
    rsvp_context := [] }

/-- Fixture for C8: store with the dangling token and no bookings. -/
def c8db : DB :=
  { users := [ownerU, reqU]
    collections := []
    things := []
    bookings := []
    reservations := []
    rsvps := [c8rsvp]
    outbox := [] }

/-- C8 (refutation): a resolve that fails with NOT_FOUND because the
underlying booking is missing still deletes the RSVP token row, instead of
leaving it in place as the claim states. -/
theorem c8_token_deleted_on_booking_not_found_cex :
    findRsvp c8db "RSVP08" = some c8rsvp
    ∧ (verifyLink 1 c8db "RSVP08").1.status = HttpStatus.notFound
    ∧ (verifyLink 1 c8db "RSVP08").2.rsvps = [] := by
  refine ⟨?_, ?_, ?_⟩ <;> decide

/-- C8 (amended): once the resolve pipeline has located a booking-action
token, the row is deleted whatever the outcome — success, detected token
expiry, booking missing (404), booking expired-or-already-processed (400)
or thing missing (404). -/
theorem c8_booking_token_deleted_on_every_outcome (now : Int) (db : DB) (code : String)
    (r : RSVP) (hr : findRsvp db code = some r)
    (_hact : r.rsvp_action = RsvpAction.BOOKING_ACCEPT
             ∨ r.rsvp_action = RsvpAction.BOOKING_REJECT) :
    findRsvp (verifyLink now db code).2 code = none := by
  have hdel := verifyLink_rsvps_deleted now db code r hr
  unfold findRsvp
  rw [hdel]
  exact findRsvp_filter_ne db.rsvps code

/-- Witness for C8 (amended) at the dangling-booking token. -/
theorem c8_booking_token_deleted_on_every_outcome_witness :
    findRsvp (verifyLink 1 c8db "RSVP08").2 "RSVP08" = none :=
  c8_booking_token_deleted_on_every_outcome 1 c8db "RSVP08" c8rsvp (by decide)
    (Or.inl (by decide))

/-- Sending mail does not move Thing rows. -/
theorem findThing_sendEmail (db : DB) (m : SentEmail) (c : String) :
    findThing (sendEmail db m) c = findThing db c := rfl

/-- Sending mail does not move ReservationRequest rows. -/
theorem findReservation_sendEmail (db : DB) (m : SentEmail) (c : String) :
    findReservation (sendEmail db m) c = findReservation db c := rfl

/-- Saving a Thing row does not move ReservationRequest rows. -/
theorem findReservation_updateThing (db : DB) (code : String) (g : Thing → Thing)
    (c : String) : findReservation (updateThing db code g) c = findReservation db c := rfl

/-- Saving a ReservationRequest row does not move Thing rows. -/
theorem findThing_updateReservation (db : DB) (code : String)
    (g : ReservationRequest → ReservationRequest) (c : String) :
    findThing (updateReservation db code g) c = findThing db c := rfl

/-- C3: for a single-use (GIFT/SELL) thing, a create_request that passes all
checks sets the thing to TAKEN and creates a PENDING dateless
ReservationRequest; accepting it within the window sets the thing INACTIVE
and unavailable and appends the requester to the deal list idempotently;
rejecting it instead reverts the thing to ACTIVE. -/
theorem c3_single_use_lifecycle (now now2 today : Int) (db : DB) (requester : User)
    (tcode fc : String) (p : ReqPayload) (thing : Thing) (owner : User)
    (hfind : findThing db tcode = some thing)
    (hsu : thing.thing_type = ThingType.GIFT_THING ∨ thing.thing_type = ThingType.SELL_THING)
    (hview : thing.can_view db.collections requester.user_code = true)
    (hnotown : thing.is_owner requester.user_code = false)
    (hact : thing.thing_status = ThingStatus.ACTIVE)
    (hnodup : db.reservations.any (fun r =>
        r.thing_code == thing.thing_code && r.requester_code == requester.user_code
          && r.status == ResStatus.PENDING) = false)
    (hfresh : findReservation db fc = none)
    (howner : findUser db thing.thing_owner = some owner)
    (hvalid : now2 < now + RESERVATION_EXPIRY_HOURS) :
    (thingRequestPost now today db requester tcode p fc).1.status = HttpStatus.ok
    ∧ findThing (thingRequestPost now today db requester tcode p fc).2 tcode
        = some { thing with thing_status := ThingStatus.TAKEN }
    ∧ findReservation (thingRequestPost now today db requester tcode p fc).2 fc
        = some { reservation_code := fc
                 reservation_created := now
                 thing_code := thing.thing_code
                 requester_code := requester.user_code
                 requester_email := requester.user_email
                 owner_code := thing.thing_owner
                 status := ResStatus.PENDING }
    ∧ (reservationAcceptGet now2
          (thingRequestPost now today db requester tcode p fc).2 fc).1.status = HttpStatus.ok
    ∧ findThing (reservationAcceptGet now2
          (thingRequestPost now today db requester tcode p fc).2 fc).2 tcode
        = some { thing with thing_status := ThingStatus.INACTIVE,
                            thing_available := false,
                            thing_deal := addIfMissing thing.thing_deal requester.user_code }
    ∧ requester.user_code ∈ addIfMissing thing.thing_deal requester.user_code
    ∧ (thing.thing_deal.contains requester.user_code = true →
        addIfMissing thing.thing_deal requester.user_code = thing.thing_deal)
    ∧ (reservationRejectGet now2
          (thingRequestPost now today db requester tcode p fc).2 fc).1.status = HttpStatus.ok
    ∧ findThing (reservationRejectGet now2
          (thingRequestPost now today db requester tcode p fc).2 fc).2 tcode
        = some { thing with thing_status := ThingStatus.ACTIVE } := by
  have htc : thing.thing_code = tcode := by
    unfold findThing at hfind
    have h := List.find?_some hfind
    simpa using h
  subst htc
  have hdtb : reservationsDateBasedTypes.contains thing.thing_type.value = false := by
    rcases hsu with h | h <;> rw [h] <;> decide
  have hA : thingRequestPost now today db requester thing.thing_code p fc
      = ({ status := HttpStatus.ok,
           body := [("message", "Reservation request sent"), ("reservation_code", fc)] },
         sendEmail
           (updateThing
             { db with reservations := db.reservations ++
                 [{ reservation_code := fc
                    reservation_created := now
                    thing_code := thing.thing_code
                    requester_code := requester.user_code
                    requester_email := requester.user_email
                    owner_code := thing.thing_owner
                    status := ResStatus.PENDING }] }
             thing.thing_code (fun t => { t with thing_status := ThingStatus.TAKEN }))
           { recipients := [owner.user_email]
             subject := requesterName requester ++ " quiere reservar: " ++ thing.thing_headline
             links := [RESERVATION_BASE_URL ++ "/" ++ fc ++ "/accept",
                       RESERVATION_BASE_URL ++ "/" ++ fc ++ "/reject"] }) := by
    unfold thingRequestPost
    simp only [hfind]
    rw [if_neg (by simp [hview]), if_neg (by simp [hnotown]), if_neg (by simp [hact]),
        if_neg (by simpa using hdtb)]
    unfold handleStandardRequest
    rw [if_neg (by simp [hnodup])]
    dsimp only
    have howner2 : findUser
        (updateThing
          { db with reservations := db.reservations ++
              [{ reservation_code := fc
                 reservation_created := now
                 thing_code := thing.thing_code
                 requester_code := requester.user_code
                 requester_email := requester.user_email
                 owner_code := thing.thing_owner
                 status := ResStatus.PENDING }] }
          thing.thing_code (fun t => { t with thing_status := ThingStatus.TAKEN }))
        thing.thing_owner = some owner := howner
    rw [howner2]
  have hTaken : findThing (thingRequestPost now today db requester thing.thing_code p fc).2
      thing.thing_code = some { thing with thing_status := ThingStatus.TAKEN } := by
    rw [hA]
    rw [findThing_sendEmail,
        findThing_updateThing _ thing.thing_code thing.thing_code
          (fun t => { t with thing_status := ThingStatus.TAKEN }) (fun t => rfl)]
    have h0 : findThing
        { db with reservations := db.reservations ++
            [{ reservation_code := fc
               reservation_created := now
               thing_code := thing.thing_code
               requester_code := requester.user_code
               requester_email := requester.user_email
               owner_code := thing.thing_owner
               status := ResStatus.PENDING }] }
        thing.thing_code = some thing := hfind
    rw [h0]
    simp
  have hresvA : findReservation
      (thingRequestPost now today db requester thing.thing_code p fc).2 fc
      = some { reservation_code := fc
               reservation_created := now
               thing_code := thing.thing_code
               requester_code := requester.user_code
               requester_email := requester.user_email
               owner_code := thing.thing_owner
               status := ResStatus.PENDING } := by
    rw [hA, findReservation_sendEmail, findReservation_updateThing]
    unfold findReservation at hfresh ⊢
    dsimp only
    rw [List.find?_append, hfresh]
    simp
  have hMem : requester.user_code ∈ addIfMissing thing.thing_deal requester.user_code := by
    unfold addIfMissing
    by_cases h : thing.thing_deal.contains requester.user_code = true
    · rw [if_pos h]
      simpa using h
    · rw [if_neg h]
      simp
  have hIdem : thing.thing_deal.contains requester.user_code = true →
      addIfMissing thing.thing_deal requester.user_code = thing.thing_deal := by
    intro h
    unfold addIfMissing
    rw [if_pos h]
  refine ⟨by rw [hA], hTaken, hresvA, ?_, ?_, hMem, hIdem, ?_, ?_⟩
  · unfold reservationAcceptGet
    rw [hresvA]
    dsimp only
    rw [if_neg (by simp [reservationIsValid, hvalid])]
    rw [hTaken]
  · unfold reservationAcceptGet
    rw [hresvA]
    dsimp only
    rw [if_neg (by simp [reservationIsValid, hvalid])]
    rw [hTaken]
    dsimp only
    rw [findThing_sendEmail,
        findThing_updateThing _ thing.thing_code thing.thing_code
          (fun t => { t with thing_status := ThingStatus.INACTIVE,
                             thing_available := false,
                             thing_deal := addIfMissing t.thing_deal requester.user_code })
          (fun t => rfl),
        findThing_updateReservation]
    rw [hTaken]
    simp
  · unfold reservationRejectGet
    rw [hresvA]
    dsimp only
    rw [if_neg (by simp [reservationIsValid, hvalid])]
    rw [hTaken]
  · unfold reservationRejectGet
    rw [hresvA]
    dsimp only
    rw [if_neg (by simp [reservationIsValid, hvalid])]
    rw [hTaken]
    dsimp only
    rw [findThing_sendEmail,
        findThing_updateThing _ thing.thing_code thing.thing_code
          (fun t => { t with thing_status := ThingStatus.ACTIVE }) (fun t => rfl),
        findThing_updateReservation]
    rw [hTaken]
    simp

/-- Fixture for C3: a single-use GIFT thing, currently ACTIVE. -/
def c3thing : Thing :=
  { thing_code := "GIFT03"
    thing_type := ThingType.GIFT_THING
    thing_owner := "OWNER1"
    thing_headline := "Book"
    thing_status := ThingStatus.ACTIVE
    thing_deal := []
    thing_available := true }

/-- Fixture for C3: the collection making the GIFT thing visible. -/
def c3coll : Collection :=
  { collection_code := "COLL03"
    collection_owner := "OWNER1"
    collection_things := ["GIFT03"]
    collection_invites := ["REQ001"] }

/-- Fixture for C3: store with the GIFT thing and empty booking tables. -/
def c3db : DB :=
  { users := [ownerU, reqU]
    collections := [c3coll]
    things := [c3thing]
    bookings := []
    reservations := []
    rsvps := []
    outbox := [] }

/-- Witness for C3 at the concrete GIFT thing: request at hour 0, resolve at
hour 1. -/
theorem c3_single_use_lifecycle_witness :
    (thingRequestPost 0 0 c3db reqU "GIFT03" c4emptyPayload "RES303").1.status = HttpStatus.ok
    ∧ findThing (thingRequestPost 0 0 c3db reqU "GIFT03" c4emptyPayload "RES303").2 "GIFT03"
        = some { c3thing with thing_status := ThingStatus.TAKEN }
    ∧ findReservation
        (thingRequestPost 0 0 c3db reqU "GIFT03" c4emptyPayload "RES303").2 "RES303"
        = some { reservation_code := "RES303"
                 reservation_created := 0
                 thing_code := c3thing.thing_code
                 requester_code := reqU.user_code
                 requester_email := reqU.user_email
                 owner_code := c3thing.thing_owner
                 status := ResStatus.PENDING }
    ∧ (reservationAcceptGet 1
          (thingRequestPost 0 0 c3db reqU "GIFT03" c4emptyPayload "RES303").2
          "RES303").1.status = HttpStatus.ok
    ∧ findThing (reservationAcceptGet 1
          (thingRequestPost 0 0 c3db reqU "GIFT03" c4emptyPayload "RES303").2
          "RES303").2 "GIFT03"
        = some { c3thing with thing_status := ThingStatus.INACTIVE,
                              thing_available := false,
                              thing_deal := addIfMissing c3thing.thing_deal reqU.user_code }
    ∧ reqU.user_code ∈ addIfMissing c3thing.thing_deal reqU.user_code
    ∧ (c3thing.thing_deal.contains reqU.user_code = true →
        addIfMissing c3thing.thing_deal reqU.user_code = c3thing.thing_deal)
    ∧ (reservationRejectGet 1
          (thingRequestPost 0 0 c3db reqU "GIFT03" c4emptyPayload "RES303").2
          "RES303").1.status = HttpStatus.ok
    ∧ findThing (reservationRejectGet 1
          (thingRequestPost 0 0 c3db reqU "GIFT03" c4emptyPayload "RES303").2
          "RES303").2 "GIFT03"
        = some { c3thing with thing_status := ThingStatus.ACTIVE } :=
  c3_single_use_lifecycle 0 1 0 c3db reqU "GIFT03" "RES303" c4emptyPayload c3thing ownerU
    (by decide) (Or.inl (by decide)) (by decide) (by decide) (by decide) (by decide)
    (by decide) (by decide) (by decide)

end Oiueei
